import Mathlib

/-!
Verification of `microsetta_private_api/util/melissa.py` (`verify_address`).

The Python source is shallowly embedded below:
* the result-code classifier (lines 110-139 of the source) becomes the pure
  functions `scanCodes`, `scanVerdict` and `classify`;
* the orchestration (validation, duplicate lookup, record creation, HTTP
  call, response parsing, persistence, commit) becomes `verify_address`, a
  function from the inputs and an `Env` (the behaviour of the external
  collaborators: record store, HTTP transport, parsed provider response) to
  an `Except PyError ReturnDict` together with the list of side effects the
  call performed, in order.

Machine-level notes on fidelity:
* `requests.Response.status_code` is an `int` in Python; the source
  concatenates it to a `str`, which raises `TypeError`.  String
  concatenation is therefore embedded typed, as `pyStrAdd` over `PyVal`.
* Python `code[0:2]` on a string shorter than 2 returns the whole string,
  exactly as `pyTake2` below.
* Python `r_codes.split(",")` keeps empty fields and returns `[""]` on the
  empty string; `pySplitComma` below mirrors it (structurally recursive over
  the character list, so that the kernel can evaluate it).
* a missing JSON key is modelled as `Option.none`; the fresh-verification
  return dict of the source has no `"duplicate"` key, so `ReturnDict`
  carries `duplicate : Option Bool` (`none` = key absent).
-/

/-- Helper for `pySplitComma`: walk the characters, `acc` holding the current
field reversed, emitting a field at each separator and at the end. -/
def pySplitAux (sep : Char) : List Char → List Char → List String
  | [], acc => [String.mk acc.reverse]
  | c :: rest, acc =>
    if c = sep then String.mk acc.reverse :: pySplitAux sep rest []
    else pySplitAux sep rest (c :: acc)

/-- Python `s.split(",")` (single-character separator): keeps empty fields,
returns `[""]` for the empty string. -/
def pySplitComma (s : String) : List String := pySplitAux ',' s.data []

/-- Python `s[0:2]`: the first two characters, or all of `s` when it is
shorter than 2. -/
def pyTake2 (s : String) : String := String.mk (s.data.take 2)

/-- `GOOD_CODES = ["AV25", "AV24", "AV23", "AV22", "AV21"]` (source line 11):
the response codes treated as deliverable unconditionally. -/
def GOOD_CODES : List String := ["AV25", "AV24", "AV23", "AV22", "AV21"]

/-- `GOOD_CODES_NO_ERROR = ["AV14"]` (source line 16): good only when no
error code is present anywhere in the list. -/
def GOOD_CODES_NO_ERROR : List String := ["AV14"]

/-- The `for code in codes` loop of source lines 119-126, with accumulators
`r_errors_present` and `r_good_conditional`; `r_good` starts `False` and the
loop `break`s (returning) as soon as a code is in `GOOD_CODES`.  Returns
`(r_good, r_errors_present, r_good_conditional)` as left by the loop. -/
def scanCodes : List String → Bool → Bool → Bool × Bool × Bool
  | [], errs, cond => (false, errs, cond)
  | c :: rest, errs, cond =>
    let errs := errs || (pyTake2 c = "AE")
    let cond := cond || (c ∈ GOOD_CODES_NO_ERROR)
    if c ∈ GOOD_CODES then (true, errs, cond)
    else scanCodes rest errs cond

/-- Source lines 118-129: split `r_codes` on `","`, run the scanning loop,
then promote to good when the conditional flag is set and no error code was
seen (`if r_good_conditional and not r_errors_present: r_good = True`). -/
def scanVerdict (r_codes : String) : Bool :=
  let s := scanCodes (pySplitComma r_codes) false false
  if s.2.2 && !s.2.1 then true else s.1

/-- Source lines 118-139: the full classifier, scanning plus the PO-box
override.  `addressType` is the value of the optional `"AddressType"` key of
the provider record (`none` = key absent).  When `block_po_boxes` holds and
`AddressType == "P"`, the verdict is forced to `false` and `",AEPOBOX"` is
appended to the code string; otherwise the scan verdict and the unchanged
code string are returned. -/
def classify (r_codes : String) (addressType : Option String)
    (block_po_boxes : Bool) : Bool × String :=
  let r_good := scanVerdict r_codes
  if block_po_boxes then
    match addressType with
    | some t => if t = "P" then (false, r_codes ++ ",AEPOBOX") else (r_good, r_codes)
    | none => (r_good, r_codes)
  else (r_good, r_codes)

/-- A Python runtime value, as far as the source manipulates them in string
concatenation: a `str` or an `int`. -/
inductive PyVal where
  | str (s : String)
  | int (n : Int)
deriving DecidableEq

/-- Python `+` restricted to the shapes the source can produce: `str + str`
concatenates, `str + int` raises `TypeError` (this is what
`" Status Code: " + response.status_code` does at source line 96, since
`requests.Response.status_code` is an `int`). -/
def pyStrAdd : PyVal → PyVal → Except String PyVal
  | .str a, .str b => .ok (.str (a ++ b))
  | .str _, .int _ => .error "can only concatenate str (not \"int\") to str"
  | .int _, _ => .error "unsupported operand type(s) for +"

/-- The row returned by `melissa_repo.check_duplicate` when a duplicate
exists (source lines 48-57 read exactly these keys). -/
structure DupeRecord where
  result_address_1 : String
  result_address_2 : String
  result_address_3 : String
  result_city : String
  result_state : String
  result_postal : String
  result_country : String
  result_latitude : String
  result_longitude : String
  result_good : Bool
deriving DecidableEq

/-- One element of the provider response's `"Records"` list, with exactly
the keys the source reads (lines 112-149); `AddressType` is optional
(US-only key), `none` meaning the key is absent. -/
structure RecordObj where
  FormattedAddress : String
  Results : String
  AddressType : Option String
  AddressLine1 : String
  AddressLine2 : String
  AddressLine3 : String
  Locality : String
  AdministrativeArea : String
  PostalCode : String
  CountryName : String
  Latitude : String
  Longitude : String
deriving DecidableEq

/-- The observable part of `requests.get`'s response: `ok`, `status_code`
(an `int` in the `requests` library), `reason` and the body `text`. -/
structure HttpResponse where
  ok : Bool
  status_code : Int
  reason : String
  text : String
deriving DecidableEq

/-- The JSON object `json.loads(response.text)` as far as the source
consumes it: the optional `"Records"` key holding a list of records
(`none` = key absent, taking the `else` branch of line 102). -/
structure ResponseObj where
  Records : Option (List RecordObj)
deriving DecidableEq

/-- The behaviour of the external collaborators during one call: the
duplicate-lookup answer (`none` = `check_duplicate` returned `False`), the
id handed back by `create_record` (`none` = `None`), the HTTP response, its
parsed body, whether `update_results` reports success, and the configured
license key. -/
structure Env where
  dupe : Option DupeRecord
  record_id : Option String
  response : HttpResponse
  parsed : ResponseObj
  update_success : Bool
  melissa_license_key : String
deriving DecidableEq

/-- The dict `verify_address` returns.  `duplicate` is `Option Bool` because
the source's fresh-verification dict (lines 168-177) carries no
`"duplicate"` key at all, while the duplicate-path dict (lines 48-58)
carries `"duplicate": True`; `none` = key absent. -/
structure ReturnDict where
  address_1 : String
  address_2 : String
  address_3 : String
  city : String
  state : String
  postal : String
  country : String
  latitude : String
  longitude : String
  valid : Bool
  duplicate : Option Bool
deriving DecidableEq

/-- The exceptions `verify_address` can raise, one constructor per raise
site: `keyError` (line 38), `repoException` (line 66), `typeError` (the
`str + int` concatenation at line 96), `transport` (the `Exception` of line
98, unreachable because of the `typeError`), `valueError` (line 166),
`indexError` (the unguarded `Records[0]` of line 110 on an empty list) and
`providerFormat` (the `Exception` of line 185). -/
inductive PyError where
  | keyError (msg : String)
  | repoException (msg : String)
  | typeError (msg : String)
  | transport (msg : String)
  | valueError (msg : String)
  | indexError (msg : String)
  | providerFormat (msg : String)
deriving DecidableEq

/-- The side effects a call performs, in order: opening the transaction
(line 40), the duplicate lookup (line 43) with the four fields it receives,
`create_record` (line 61) with the seven fields it receives, the HTTP GET
(line 93) with the request parameters, `update_results` (line 151) with the
record id, the raw response text, the (possibly amended) code string and the
verdict it persists, and `t.commit()` (lines 161 and 181). -/
inductive Effect where
  | openTransaction
  | checkDuplicate (address_1 : String) (address_2 : Option String)
      (postal : String) (country : String)
  | createRecord (address_1 : String) (address_2 address_3 city state : Option String)
      (postal : String) (country : String)
  | httpGet (params : List (String × Option String))
  | updateResults (record_id : String) (response_raw : String)
      (codes : String) (good : Bool)
  | commit
deriving DecidableEq

/-- Is this effect the provider (HTTP) call? -/
def Effect.isProviderCall : Effect → Bool
  | .httpGet _ => true
  | _ => false

/-- Is this effect a store record creation? -/
def Effect.isCreate : Effect → Bool
  | .createRecord _ _ _ _ _ _ _ => true
  | _ => false

/-- Is this effect a store results update? -/
def Effect.isUpdate : Effect → Bool
  | .updateResults _ _ _ _ => true
  | _ => false

/-- The `url_params` dict of source lines 68-88, in insertion order, with
`a2`/`a3` normalized from `None` to `""` (lines 80-88).  `city` and `state`
stay optional, as the source passes them through unnormalized.  The
percent-encoding of `urllib.parse.urlencode` is not modelled: no claim
depends on the final URL text. -/
def mkUrlParams (license_key record_id address_1 : String)
    (address_2 address_3 city state : Option String)
    (postal country : String) : List (String × Option String) :=
  [("id", some license_key), ("opt", some "DeliveryLines:ON"),
   ("format", some "JSON"), ("t", some record_id), ("a1", some address_1),
   ("loc", city), ("admarea", state), ("postal", some postal),
   ("ctry", some country), ("a2", some (address_2.getD "")),
   ("a3", some (address_3.getD ""))]

/-- The dict built on the duplicate path (source lines 48-58): the stored
normalized fields of the prior record plus `"duplicate": True`. -/
def dupeReturn (d : DupeRecord) : ReturnDict :=
  ⟨d.result_address_1, d.result_address_2, d.result_address_3, d.result_city,
   d.result_state, d.result_postal, d.result_country, d.result_latitude,
   d.result_longitude, d.result_good, some true⟩

/-- The body of `verify_address` past the required-field validation (source
lines 40-185): duplicate lookup, record creation, HTTP call, response
parsing, classification, persistence and commit, returning the result or
the raised exception together with the ordered effect trace. -/
def verifyBody (address_1 : String) (address_2 address_3 city state : Option String)
    (postal country : String) (block_po_boxes : Bool) (env : Env) :
    Except PyError ReturnDict × List Effect :=
  let tr0 := [Effect.openTransaction,
              Effect.checkDuplicate address_1 address_2 postal country]
  match env.dupe with
  | some d => (.ok (dupeReturn d), tr0)
  | none =>
    let tr1 := tr0 ++
      [Effect.createRecord address_1 address_2 address_3 city state postal country]
    match env.record_id with
    | none => (.error (.repoException "Failed to create record in database."), tr1)
    | some record_id =>
      let params := mkUrlParams env.melissa_license_key record_id address_1
        address_2 address_3 city state postal country
      let tr2 := tr1 ++ [Effect.httpGet params]
      if env.response.ok = false then
        match pyStrAdd (.str " Status Code: ") (.int env.response.status_code) with
        | .error m => (.error (.typeError m), tr2)
        | .ok v =>
          match pyStrAdd (.str "Error connecting to Melissa API.") v with
          | .error m => (.error (.typeError m), tr2)
          | .ok v2 =>
            match pyStrAdd v2 (.str (" Status Text: " ++ env.response.reason)) with
            | .error m => (.error (.typeError m), tr2)
            | .ok (.str msg) => (.error (.transport msg), tr2)
            | .ok (.int _) => (.error (.transport ""), tr2)
      else
        let response_raw := env.response.text
        match env.parsed.Records with
        | none =>
          (.error (.providerFormat ("Melissa Global Address API failed on " ++ record_id)),
            tr2 ++ [Effect.commit])
        | some records =>
          match records.head? with
          | none => (.error (.indexError "list index out of range"), tr2)
          | some record_obj =>
            let cls := classify record_obj.Results record_obj.AddressType block_po_boxes
            let tr4 := tr2 ++
              [Effect.updateResults record_id response_raw cls.2 cls.1, Effect.commit]
            if env.update_success = false then
              (.error (.valueError
                ("Failed to update results for Melissa Address Query " ++ record_id)), tr4)
            else
              (.ok ⟨record_obj.AddressLine1, record_obj.AddressLine2,
                record_obj.AddressLine3, record_obj.Locality,
                record_obj.AdministrativeArea, record_obj.PostalCode,
                record_obj.CountryName, record_obj.Latitude, record_obj.Longitude,
                cls.1, none⟩, tr4)

/-- The exception message of source line 38. -/
def validationMsg : String := "Must include address_1, postal, and country fields"

/-- `verify_address` (source lines 19-185): required-field validation
(lines 36-38, raising `KeyError` when `address_1`, `postal` or `country` is
`None` or shorter than one character, before any effect), then the body. -/
def verify_address (address_1 address_2 address_3 city state postal country : Option String)
    (block_po_boxes : Bool) (env : Env) :
    Except PyError ReturnDict × List Effect :=
  match address_1, postal, country with
  | some a1, some p, some c =>
    if a1.length < 1 || p.length < 1 || c.length < 1 then
      (.error (.keyError validationMsg), [])
    else
      verifyBody a1 address_2 address_3 city state p c block_po_boxes env
  | _, _, _ => (.error (.keyError validationMsg), [])

/-- Equality of `Except` results is decidable when both components are, so
that concrete runs can be checked by `decide`. -/
instance exceptDecEq {ε α : Type} [DecidableEq ε] [DecidableEq α] :
    DecidableEq (Except ε α) := fun a b =>
  match a, b with
  | .ok x, .ok y =>
    if h : x = y then isTrue (by rw [h])
    else isFalse (fun hc => h (Except.ok.inj hc))
  | .error x, .error y =>
    if h : x = y then isTrue (by rw [h])
    else isFalse (fun hc => h (Except.error.inj hc))
  | .ok _, .error _ => isFalse (fun hc => Except.noConfusion hc)
  | .error _, .ok _ => isFalse (fun hc => Except.noConfusion hc)

/-- Did the call raise the `KeyError` of source line 38? -/
def isValidationError : Except PyError ReturnDict → Bool
  | .error (.keyError _) => true
  | _ => false

/-- Did the call raise the provider-format `Exception` of source line 185? -/
def isProviderFormatResult : Except PyError ReturnDict → Bool
  | .error (.providerFormat _) => true
  | _ => false

/-- A well-formed OK HTTP response used by the concrete environments. -/
def httpOkResp : HttpResponse := ⟨true, 200, "OK", "raw-body"⟩

/-- A concrete environment: no duplicate, record creation succeeds, the
HTTP call succeeds, but the parsed response has no `"Records"` key. -/
def envNoRecords : Env := ⟨none, some "rid6", httpOkResp, ⟨none⟩, true, "license"⟩

/-- A concrete provider record: deliverable (`AV22`), no `AddressType`. -/
def recGood : RecordObj :=
  ⟨"formatted", "AV22", none, "L1", "L2", "L3", "City", "ST", "12345",
    "United States", "32.7", "-117.1"⟩

/-- A concrete environment for the fresh-verification success path. -/
def envFresh : Env := ⟨none, some "rid7", httpOkResp, ⟨some [recGood]⟩, true, "license"⟩

/-- A concrete environment whose HTTP response is a 500 failure. -/
def envHttpFail : Env :=
  ⟨none, some "rid8", ⟨false, 500, "Internal Server Error", ""⟩, ⟨none⟩, true, "license"⟩

/-- A concrete environment where `update_results` reports failure. -/
def envUpdateFail : Env :=
  ⟨none, some "rid9", httpOkResp, ⟨some [recGood]⟩, false, "license"⟩

/-- A concrete environment whose parsed response has a `"Records"` key
holding an empty list. -/
def envEmptyRecords : Env :=
  ⟨none, some "rid10", httpOkResp, ⟨some []⟩, true, "license"⟩

/-- A concrete stored duplicate record. -/
def dupeEx : DupeRecord :=
  ⟨"D1", "D2", "D3", "DCity", "DST", "99999", "US", "10.0", "20.0", true⟩

/-- A concrete environment whose duplicate lookup finds `dupeEx`. -/
def envDupe : Env := ⟨some dupeEx, none, httpOkResp, ⟨none⟩, true, "license"⟩

/-- The scanning loop returns `r_good = true` exactly when some code of the
list is in `GOOD_CODES`, whatever the accumulators hold. -/
theorem scanCodes_fst_eq_true (l : List String) (e k : Bool) :
    (scanCodes l e k).1 = true ↔ ∃ c ∈ l, c ∈ GOOD_CODES := by
  induction l generalizing e k with
  | nil => simp [scanCodes]
  | cons c rest ih =>
    by_cases hc : c ∈ GOOD_CODES
    · simp [scanCodes, hc]
    · simp only [scanCodes, if_neg hc]
      rw [ih]
      simp [hc]

/-- When no code of the list is in `GOOD_CODES`, the loop never breaks and
the accumulators collect error/conditional flags over the whole list. -/
theorem scanCodes_no_good (l : List String) (e k : Bool)
    (h : ∀ c ∈ l, c ∉ GOOD_CODES) :
    scanCodes l e k =
      (false, e || l.any (fun c => pyTake2 c = "AE"),
        k || l.any (fun c => c ∈ GOOD_CODES_NO_ERROR)) := by
  induction l generalizing e k with
  | nil => simp [scanCodes]
  | cons c rest ih =>
    have hc : c ∉ GOOD_CODES := h c (List.mem_cons_self c rest)
    simp only [scanCodes, if_neg hc]
    rw [ih _ _ (fun d hd => h d (List.mem_cons_of_mem c hd))]
    simp [List.any_cons, Bool.or_assoc]

/-- C1: a result-code list containing any of the unconditional-good codes
AV21-AV25 yields verdict good whenever the PO-box override does not apply
(`block_po_boxes` false, or no `AddressType` value equal to `"P"`),
regardless of every other code present, error codes included. -/
theorem good_code_forces_valid (r_codes : String) (addressType : Option String)
    (block_po_boxes : Bool)
    (hgood : ∃ c ∈ pySplitComma r_codes, c ∈ GOOD_CODES)
    (hpo : block_po_boxes = false ∨ addressType ≠ some "P") :
    (classify r_codes addressType block_po_boxes).1 = true := by
  have hverdict : scanVerdict r_codes = true := by
    unfold scanVerdict
    have hg := (scanCodes_fst_eq_true (pySplitComma r_codes) false false).mpr hgood
    rcases hs : scanCodes (pySplitComma r_codes) false false with ⟨g, e, k⟩
    rw [hs] at hg
    simp only at hg
    subst hg
    simp
  unfold classify
  rcases hpo with hb | ht
  · subst hb
    simpa using hverdict
  · cases hbp : block_po_boxes with
    | false => simpa using hverdict
    | true =>
      cases hat : addressType with
      | none => simpa using hverdict
      | some t =>
        have htne : t ≠ "P" := by
          intro hEq
          exact ht (by rw [hat, hEq])
        simp only [if_neg htne]
        simpa using hverdict

/-- C1 witness: the concrete list `["AE001", "AV22"]` with no address type
and PO-box blocking on yields verdict good. -/
theorem good_code_forces_valid_witness :
    (classify "AE001,AV22" none true).1 = true :=
  good_code_forces_valid "AE001,AV22" none true
    ⟨"AV22", by decide, by decide⟩ (Or.inr (by simp))

/-- When the PO-box override condition fails (`block_po_boxes` false, or the
address type is not `"P"`), the classifier returns the scan verdict and the
unchanged code string. -/
theorem classify_of_no_po (r_codes : String) (addressType : Option String)
    (block_po_boxes : Bool) (hpo : block_po_boxes = false ∨ addressType ≠ some "P") :
    classify r_codes addressType block_po_boxes = (scanVerdict r_codes, r_codes) := by
  unfold classify
  rcases hpo with hb | ht
  · subst hb
    simp
  · cases block_po_boxes with
    | false => simp
    | true =>
      cases hat : addressType with
      | none => simp
      | some t =>
        have htne : t ≠ "P" := by
          intro hEq
          exact ht (by rw [hat, hEq])
        simp [htne]

/-- C2: with the conditional-good code AV14 present, no unconditional-good
code anywhere, and the PO-box override not applicable, the verdict is good
exactly when no code of the list starts with `"AE"`. -/
theorem av14_good_iff_no_errors (r_codes : String) (addressType : Option String)
    (block_po_boxes : Bool)
    (hcond : ∃ c ∈ pySplitComma r_codes, c ∈ GOOD_CODES_NO_ERROR)
    (hnogood : ∀ c ∈ pySplitComma r_codes, c ∉ GOOD_CODES)
    (hpo : block_po_boxes = false ∨ addressType ≠ some "P") :
    (classify r_codes addressType block_po_boxes).1 = true ↔
      ∀ c ∈ pySplitComma r_codes, pyTake2 c ≠ "AE" := by
  rw [classify_of_no_po r_codes addressType block_po_boxes hpo]
  show scanVerdict r_codes = true ↔ _
  unfold scanVerdict
  rw [scanCodes_no_good (pySplitComma r_codes) false false hnogood]
  have hcondb : (pySplitComma r_codes).any (fun c => c ∈ GOOD_CODES_NO_ERROR) = true := by
    rcases hcond with ⟨c, hc, hmem⟩
    exact List.any_eq_true.mpr ⟨c, hc, by simpa using hmem⟩
  simp only [Bool.false_or, hcondb, Bool.true_and]
  cases herr : (pySplitComma r_codes).any (fun c => pyTake2 c = "AE") with
  | false =>
    refine iff_of_true (by simp) ?_
    intro c hc
    have h2 := List.any_eq_false.mp herr c hc
    simpa using h2
  | true =>
    refine iff_of_false (by simp) ?_
    intro hall
    rcases List.any_eq_true.mp herr with ⟨c, hc, hAE⟩
    exact hall c hc (by simpa using hAE)

/-- A Python string has `len(s) < 1` exactly when it is empty. -/
theorem string_length_lt_one_iff (s : String) : s.length < 1 ↔ s = "" := by
  rcases s with ⟨data⟩
  cases data with
  | nil => simp [String.length]
  | cons c cs => simp [String.length, String.ext_iff]

/-- The validation condition of source lines 36-37 over non-`None` strings:
some required field is empty. -/
theorem missingCond_iff (a1 p c : String) :
    (a1.length < 1 || p.length < 1 || c.length < 1) = true ↔
      (a1 = "" ∨ p = "" ∨ c = "") := by
  have h : ∀ s : String, s.length = 0 ↔ s = "" := by
    intro s
    rw [← Nat.lt_one_iff]
    exact string_length_lt_one_iff s
  simp [h, or_assoc]

/-- No branch of the body past validation raises a `KeyError`. -/
theorem verifyBody_not_validation (a1 : String) (a2 a3 city state : Option String)
    (p c : String) (b : Bool) (env : Env) :
    isValidationError (verifyBody a1 a2 a3 city state p c b env).1 = false := by
  unfold verifyBody
  cases hd : env.dupe with
  | some d => rfl
  | none =>
    cases hr : env.record_id with
    | none => rfl
    | some rid =>
      cases hok : env.response.ok with
      | false => rfl
      | true =>
        cases hrec : env.parsed.Records with
        | none => rfl
        | some records =>
          cases records with
          | nil => rfl
          | cons r rest =>
            cases hu : env.update_success with
            | false => rfl
            | true => rfl

/-- C2 witness: the concrete list `["AV14", "AE001"]` (conditional-good code
with an error code) is not promoted to good: the biconditional instantiated
there, with both sides decidably false. -/
theorem av14_good_iff_no_errors_witness :
    ((classify "AV14,AE001" none true).1 = true ↔
      ∀ c ∈ pySplitComma "AV14,AE001", pyTake2 c ≠ "AE") ∧
    (classify "AV14,AE001" none true).1 = false :=
  ⟨av14_good_iff_no_errors "AV14,AE001" none true
      ⟨"AV14", by decide, by decide⟩ (by decide) (Or.inr (by simp)),
    by decide⟩

/-- C3: the PO-box override applies exactly when `block_po_boxes` is true and
the record carries `AddressType = "P"`: then the verdict is forced bad and
`",AEPOBOX"` is appended to the code string; in every other case (in
particular whenever `block_po_boxes` is false) the classifier returns exactly
the scan verdict and the unchanged code string. -/
theorem po_box_override_exact (r_codes : String) (addressType : Option String)
    (block_po_boxes : Bool) :
    classify r_codes addressType block_po_boxes =
      if block_po_boxes = true ∧ addressType = some "P" then
        (false, r_codes ++ ",AEPOBOX")
      else (scanVerdict r_codes, r_codes) := by
  unfold classify
  cases block_po_boxes with
  | false => simp
  | true =>
    cases addressType with
    | none => simp
    | some t =>
      by_cases ht : t = "P"
      · subst ht
        simp
      · simp [ht]

/-- C4: `verify_address` raises the validation `KeyError` exactly when
`address_1`, `postal` or `country` is `None` or the empty string, and in
that case it performs no effect at all: no transaction is opened, no
duplicate lookup, record creation, HTTP request, update or commit occurs
(the effect trace is empty). -/
theorem validation_error_iff_missing
    (address_1 address_2 address_3 city state postal country : Option String)
    (block_po_boxes : Bool) (env : Env) :
    (isValidationError (verify_address address_1 address_2 address_3 city state
        postal country block_po_boxes env).1 = true ↔
      (address_1 = none ∨ address_1 = some "" ∨ postal = none ∨ postal = some "" ∨
        country = none ∨ country = some "")) ∧
    ((address_1 = none ∨ address_1 = some "" ∨ postal = none ∨ postal = some "" ∨
        country = none ∨ country = some "") →
      (verify_address address_1 address_2 address_3 city state postal country
        block_po_boxes env).2 = []) := by
  rcases address_1 with _ | a1
  · exact ⟨by simp [verify_address, isValidationError], fun _ => rfl⟩
  rcases postal with _ | p
  · exact ⟨by simp [verify_address, isValidationError], fun _ => rfl⟩
  rcases country with _ | c
  · exact ⟨by simp [verify_address, isValidationError], fun _ => rfl⟩
  have hms : ((some a1 : Option String) = none ∨ some a1 = some "" ∨
      (some p : Option String) = none ∨ some p = some "" ∨
      (some c : Option String) = none ∨ some c = some "") ↔
      (a1 = "" ∨ p = "" ∨ c = "") := by simp
  by_cases hcond : (a1.length < 1 || p.length < 1 || c.length < 1) = true
  · refine ⟨iff_of_true ?_ (hms.mpr ((missingCond_iff a1 p c).mp hcond)), fun _ => ?_⟩
    · simp only [verify_address]
      rw [if_pos hcond]
      rfl
    · simp only [verify_address]
      rw [if_pos hcond]
  · have hne : ¬(((some a1 : Option String) = none ∨ some a1 = some "" ∨
        (some p : Option String) = none ∨ some p = some "" ∨
        (some c : Option String) = none ∨ some c = some "")) := by
      intro hmiss
      exact hcond ((missingCond_iff a1 p c).mpr (hms.mp hmiss))
    refine ⟨iff_of_false ?_ hne, fun hmiss => absurd hmiss hne⟩
    simp only [verify_address]
    rw [if_neg hcond]
    simp [verifyBody_not_validation]

/-- C4 witness: `address_1 = None` with valid postal and country raises the
validation error and produces an empty effect trace. -/
theorem validation_error_iff_missing_witness :
    isValidationError (verify_address none none none none none (some "12345")
        (some "US") true envNoRecords).1 = true ∧
    (verify_address none none none none none (some "12345") (some "US") true
        envNoRecords).2 = [] :=
  ⟨(validation_error_iff_missing none none none none none (some "12345")
        (some "US") true envNoRecords).1.mpr (Or.inl rfl),
    (validation_error_iff_missing none none none none none (some "12345")
        (some "US") true envNoRecords).2 (Or.inl rfl)⟩

/-- C5: when the duplicate lookup finds a prior record, `verify_address`
returns exactly that record's stored normalized fields with
`duplicate = true`; the trace is only transaction open plus duplicate
lookup, so in particular no provider call, no record creation and no update
occurs. -/
theorem duplicate_short_circuits (a1 : String) (a2 a3 city state : Option String)
    (p c : String) (b : Bool) (env : Env) (d : DupeRecord)
    (h1 : a1 ≠ "") (h2 : p ≠ "") (h3 : c ≠ "") (hd : env.dupe = some d) :
    verify_address (some a1) a2 a3 city state (some p) (some c) b env =
      (.ok ⟨d.result_address_1, d.result_address_2, d.result_address_3,
        d.result_city, d.result_state, d.result_postal, d.result_country,
        d.result_latitude, d.result_longitude, d.result_good, some true⟩,
       [Effect.openTransaction, Effect.checkDuplicate a1 a2 p c]) ∧
    ∀ e ∈ (verify_address (some a1) a2 a3 city state (some p) (some c) b env).2,
      e.isProviderCall = false ∧ e.isCreate = false ∧ e.isUpdate = false := by
  have hcond : ¬(a1.length < 1 || p.length < 1 || c.length < 1) = true := by
    intro h
    rcases (missingCond_iff a1 p c).mp h with h | h | h
    exacts [h1 h, h2 h, h3 h]
  have hmain : verify_address (some a1) a2 a3 city state (some p) (some c) b env =
      (.ok ⟨d.result_address_1, d.result_address_2, d.result_address_3,
        d.result_city, d.result_state, d.result_postal, d.result_country,
        d.result_latitude, d.result_longitude, d.result_good, some true⟩,
       [Effect.openTransaction, Effect.checkDuplicate a1 a2 p c]) := by
    simp only [verify_address]
    rw [if_neg hcond]
    unfold verifyBody
    rw [hd]
    rfl
  refine ⟨hmain, ?_⟩
  rw [hmain]
  intro e he
  rcases List.mem_cons.mp he with rfl | he2
  · exact ⟨rfl, rfl, rfl⟩
  rcases List.mem_cons.mp he2 with rfl | he3
  · exact ⟨rfl, rfl, rfl⟩
  · exact absurd he3 (List.not_mem_nil e)

/-- C5 witness: a concrete call against an environment whose lookup finds
the stored record `dupeEx` returns its fields with `duplicate = true` and
performs neither provider call nor create/update. -/
theorem duplicate_short_circuits_witness :
    verify_address (some "123 Main St") none none none none (some "12345")
        (some "US") true envDupe =
      (.ok ⟨"D1", "D2", "D3", "DCity", "DST", "99999", "US", "10.0", "20.0",
        true, some true⟩,
       [Effect.openTransaction, Effect.checkDuplicate "123 Main St" none "12345" "US"]) ∧
    ∀ e ∈ (verify_address (some "123 Main St") none none none none (some "12345")
        (some "US") true envDupe).2,
      e.isProviderCall = false ∧ e.isCreate = false ∧ e.isUpdate = false :=
  duplicate_short_circuits "123 Main St" none none none none "12345" "US" true
    envDupe dupeEx (by decide) (by decide) (by decide) rfl

/-- C6 counterexample: with the `"Records"` key absent from the parsed
response, the call does commit and raises the provider-format error, but the
trace contains no update effect at all, so the raw provider response is
never persisted onto the attempt record: the claim's "with the raw provider
response persisted on it" is false at this input. -/
theorem provider_format_no_raw_persisted :
    (verify_address (some "123 Main St") none none none none (some "12345")
        (some "US") true envNoRecords).1 =
      .error (.providerFormat "Melissa Global Address API failed on rid6") ∧
    Effect.commit ∈ (verify_address (some "123 Main St") none none none none
        (some "12345") (some "US") true envNoRecords).2 ∧
    ∀ e ∈ (verify_address (some "123 Main St") none none none none
        (some "12345") (some "US") true envNoRecords).2, e.isUpdate = false := by
  decide

/-- C6 amended: when the provider response lacks the `"Records"` key, the
transaction is committed before the provider-format error is raised, so the
attempt record created earlier persists - but with its input fields only:
no update effect runs on this path, hence the raw provider response is not
persisted onto the record. -/
theorem provider_format_commits_attempt (a1 : String)
    (a2 a3 city state : Option String) (p c : String) (b : Bool) (env : Env)
    (rid : String) (h1 : a1 ≠ "") (h2 : p ≠ "") (h3 : c ≠ "")
    (hd : env.dupe = none) (hr : env.record_id = some rid)
    (hok : env.response.ok = true) (hrec : env.parsed.Records = none) :
    verify_address (some a1) a2 a3 city state (some p) (some c) b env =
      (.error (.providerFormat ("Melissa Global Address API failed on " ++ rid)),
       [Effect.openTransaction, Effect.checkDuplicate a1 a2 p c,
        Effect.createRecord a1 a2 a3 city state p c,
        Effect.httpGet (mkUrlParams env.melissa_license_key rid a1 a2 a3 city state p c),
        Effect.commit]) ∧
    ∀ e ∈ (verify_address (some a1) a2 a3 city state (some p) (some c) b env).2,
      e.isUpdate = false := by
  have hcond : ¬(a1.length < 1 || p.length < 1 || c.length < 1) = true := by
    intro h
    rcases (missingCond_iff a1 p c).mp h with h | h | h
    exacts [h1 h, h2 h, h3 h]
  have hmain : verify_address (some a1) a2 a3 city state (some p) (some c) b env =
      (.error (.providerFormat ("Melissa Global Address API failed on " ++ rid)),
       [Effect.openTransaction, Effect.checkDuplicate a1 a2 p c,
        Effect.createRecord a1 a2 a3 city state p c,
        Effect.httpGet (mkUrlParams env.melissa_license_key rid a1 a2 a3 city state p c),
        Effect.commit]) := by
    simp only [verify_address]
    rw [if_neg hcond]
    unfold verifyBody
    rw [hd, hr, hok, hrec]
    rfl
  refine ⟨hmain, ?_⟩
  rw [hmain]
  intro e he
  fin_cases he <;> rfl

/-- C6 amended witness: the concrete no-`"Records"` environment: committed
trace with the created attempt record and no update. -/
theorem provider_format_commits_attempt_witness :
    verify_address (some "123 Main St") none none none none (some "12345")
        (some "US") true envNoRecords =
      (.error (.providerFormat ("Melissa Global Address API failed on " ++ "rid6")),
       [Effect.openTransaction,
        Effect.checkDuplicate "123 Main St" none "12345" "US",
        Effect.createRecord "123 Main St" none none none none "12345" "US",
        Effect.httpGet (mkUrlParams "license" "rid6" "123 Main St" none none none
          none "12345" "US"),
        Effect.commit]) ∧
    ∀ e ∈ (verify_address (some "123 Main St") none none none none (some "12345")
        (some "US") true envNoRecords).2, e.isUpdate = false :=
  provider_format_commits_attempt "123 Main St" none none none none "12345" "US"
    true envNoRecords "rid6" (by decide) (by decide) (by decide) rfl rfl rfl rfl

/-- C7 counterexample: on the fresh-verification success path the returned
dict's `duplicate` field is `none` (the `"duplicate"` key is absent from the
source's dict at lines 168-177), not `some false` as the claim states. -/
theorem fresh_result_has_no_duplicate_key :
    Except.map ReturnDict.duplicate (verify_address (some "123 Main St") none
        none none none (some "12345") (some "US") true envFresh).1 =
      Except.ok none ∧
    Except.map ReturnDict.duplicate (verify_address (some "123 Main St") none
        none none none (some "12345") (some "US") true envFresh).1 ≠
      Except.ok (some false) := by
  decide

/-- C7 amended: on the fresh-verification path (no duplicate, provider call
and parsing succeed, update reports success) the result carries the
provider record's normalized address fields, latitude, longitude and the
classifier's verdict, and no `duplicate` key at all (`duplicate = none`),
rather than a duplicate flag set to false. -/
theorem fresh_path_result_fields (a1 : String) (a2 a3 city state : Option String)
    (p c : String) (b : Bool) (env : Env) (rid : String) (rec : RecordObj)
    (rest : List RecordObj) (h1 : a1 ≠ "") (h2 : p ≠ "") (h3 : c ≠ "")
    (hd : env.dupe = none) (hr : env.record_id = some rid)
    (hok : env.response.ok = true) (hrec : env.parsed.Records = some (rec :: rest))
    (hu : env.update_success = true) :
    (verify_address (some a1) a2 a3 city state (some p) (some c) b env).1 =
      .ok ⟨rec.AddressLine1, rec.AddressLine2, rec.AddressLine3, rec.Locality,
        rec.AdministrativeArea, rec.PostalCode, rec.CountryName, rec.Latitude,
        rec.Longitude, (classify rec.Results rec.AddressType b).1, none⟩ := by
  have hcond : ¬(a1.length < 1 || p.length < 1 || c.length < 1) = true := by
    intro h
    rcases (missingCond_iff a1 p c).mp h with h | h | h
    exacts [h1 h, h2 h, h3 h]
  simp only [verify_address]
  rw [if_neg hcond]
  unfold verifyBody
  rw [hd, hr, hok, hrec, hu]
  rfl

/-- C7 amended witness: the concrete fresh-path environment returns the
record's fields with verdict `true` and `duplicate = none`. -/
theorem fresh_path_result_fields_witness :
    (verify_address (some "123 Main St") none none none none (some "12345")
        (some "US") true envFresh).1 =
      .ok ⟨"L1", "L2", "L3", "City", "ST", "12345", "United States", "32.7",
        "-117.1", true, none⟩ :=
  fresh_path_result_fields "123 Main St" none none none none "12345" "US" true
    envFresh "rid7" recGood [] (by decide) (by decide) (by decide) rfl rfl rfl
    rfl rfl

/-- C8: whenever the HTTP response is non-OK, the call raises `TypeError`
from the `str + int` concatenation `" Status Code: " + response.status_code`
(source line 96, `status_code` being an `int`), so the intended transport
error carrying status code and reason text is never raised. -/
theorem non_ok_response_type_error (a1 : String) (a2 a3 city state : Option String)
    (p c : String) (b : Bool) (env : Env) (rid : String)
    (h1 : a1 ≠ "") (h2 : p ≠ "") (h3 : c ≠ "")
    (hd : env.dupe = none) (hr : env.record_id = some rid)
    (hok : env.response.ok = false) :
    (verify_address (some a1) a2 a3 city state (some p) (some c) b env).1 =
      .error (.typeError "can only concatenate str (not \"int\") to str") := by
  have hcond : ¬(a1.length < 1 || p.length < 1 || c.length < 1) = true := by
    intro h
    rcases (missingCond_iff a1 p c).mp h with h | h | h
    exacts [h1 h, h2 h, h3 h]
  simp only [verify_address]
  rw [if_neg hcond]
  unfold verifyBody
  rw [hd, hr, hok]
  rfl

/-- C8 witness: a concrete 500 response (`ok = False`, `status_code = 500`,
`reason = "Internal Server Error"`) raises the `TypeError`. -/
theorem non_ok_response_type_error_witness :
    (verify_address (some "123 Main St") none none none none (some "12345")
        (some "US") true envHttpFail).1 =
      .error (.typeError "can only concatenate str (not \"int\") to str") :=
  non_ok_response_type_error "123 Main St" none none none none "12345" "US" true
    envHttpFail "rid8" (by decide) (by decide) (by decide) rfl rfl rfl

/-- C9 counterexample: with `update_results` reporting failure on an
otherwise-successful fresh verification, the persistence `ValueError` is
raised, yet `Effect.commit` is in the trace: the commit does occur on this
failure path (source line 161 runs before the `u_success` check of line
163), contrary to the claim. -/
theorem update_failure_still_commits :
    (verify_address (some "123 Main St") none none none none (some "12345")
        (some "US") true envUpdateFail).1 =
      .error (.valueError "Failed to update results for Melissa Address Query rid9") ∧
    Effect.commit ∈ (verify_address (some "123 Main St") none none none none
        (some "12345") (some "US") true envUpdateFail).2 := by
  refine ⟨rfl, ?_⟩
  decide

/-- C9 amended: if the store's results update reports failure, the call
fails with the persistence `ValueError`, but only after the transaction
commit: the trace ends with the update effect followed by `Effect.commit`,
and the error is raised afterwards, so the commit does occur on this
failure path. -/
theorem update_failure_error_after_commit (a1 : String)
    (a2 a3 city state : Option String) (p c : String) (b : Bool) (env : Env)
    (rid : String) (rec : RecordObj) (rest : List RecordObj)
    (h1 : a1 ≠ "") (h2 : p ≠ "") (h3 : c ≠ "")
    (hd : env.dupe = none) (hr : env.record_id = some rid)
    (hok : env.response.ok = true) (hrec : env.parsed.Records = some (rec :: rest))
    (hu : env.update_success = false) :
    verify_address (some a1) a2 a3 city state (some p) (some c) b env =
      (.error (.valueError ("Failed to update results for Melissa Address Query " ++ rid)),
       [Effect.openTransaction, Effect.checkDuplicate a1 a2 p c,
        Effect.createRecord a1 a2 a3 city state p c,
        Effect.httpGet (mkUrlParams env.melissa_license_key rid a1 a2 a3 city state p c),
        Effect.updateResults rid env.response.text
          (classify rec.Results rec.AddressType b).2
          (classify rec.Results rec.AddressType b).1,
        Effect.commit]) ∧
    Effect.commit ∈
      (verify_address (some a1) a2 a3 city state (some p) (some c) b env).2 := by
  have hcond : ¬(a1.length < 1 || p.length < 1 || c.length < 1) = true := by
    intro h
    rcases (missingCond_iff a1 p c).mp h with h | h | h
    exacts [h1 h, h2 h, h3 h]
  have hmain : verify_address (some a1) a2 a3 city state (some p) (some c) b env =
      (.error (.valueError ("Failed to update results for Melissa Address Query " ++ rid)),
       [Effect.openTransaction, Effect.checkDuplicate a1 a2 p c,
        Effect.createRecord a1 a2 a3 city state p c,
        Effect.httpGet (mkUrlParams env.melissa_license_key rid a1 a2 a3 city state p c),
        Effect.updateResults rid env.response.text
          (classify rec.Results rec.AddressType b).2
          (classify rec.Results rec.AddressType b).1,
        Effect.commit]) := by
    simp only [verify_address]
    rw [if_neg hcond]
    unfold verifyBody
    rw [hd, hr, hok, hrec, hu]
    rfl
  refine ⟨hmain, ?_⟩
  rw [hmain]
  simp

/-- C9 amended witness: the concrete update-failure environment raises the
persistence error with the commit present in the trace. -/
theorem update_failure_error_after_commit_witness :
    verify_address (some "123 Main St") none none none none (some "12345")
        (some "US") true envUpdateFail =
      (.error (.valueError ("Failed to update results for Melissa Address Query " ++ "rid9")),
       [Effect.openTransaction,
        Effect.checkDuplicate "123 Main St" none "12345" "US",
        Effect.createRecord "123 Main St" none none none none "12345" "US",
        Effect.httpGet (mkUrlParams "license" "rid9" "123 Main St" none none none
          none "12345" "US"),
        Effect.updateResults "rid9" "raw-body"
          (classify "AV22" none true).2 (classify "AV22" none true).1,
        Effect.commit]) ∧
    Effect.commit ∈ (verify_address (some "123 Main St") none none none none
        (some "12345") (some "US") true envUpdateFail).2 :=
  update_failure_error_after_commit "123 Main St" none none none none "12345"
    "US" true envUpdateFail "rid9" recGood [] (by decide) (by decide)
    (by decide) rfl rfl rfl rfl rfl

/-- On every path of the body, the provider-format error (`Exception` of
source line 185) is raised only when the parsed response has no `"Records"`
key. -/
theorem verifyBody_providerFormat_only_no_records (a1 : String)
    (a2 a3 city state : Option String) (p c : String) (b : Bool) (env : Env) :
    isProviderFormatResult (verifyBody a1 a2 a3 city state p c b env).1 = true →
      env.parsed.Records = none := by
  unfold verifyBody
  cases hd : env.dupe with
  | some d => exact fun h => Bool.noConfusion h
  | none =>
    cases hr : env.record_id with
    | none => exact fun h => Bool.noConfusion h
    | some rid =>
      cases hok : env.response.ok with
      | false => exact fun h => Bool.noConfusion h
      | true =>
        cases hrec : env.parsed.Records with
        | none => exact fun _ => rfl
        | some records =>
          cases records with
          | nil => exact fun h => Bool.noConfusion h
          | cons r rest =>
            cases hu : env.update_success with
            | false => exact fun h => Bool.noConfusion h
            | true => exact fun h => Bool.noConfusion h

/-- C10: the first element of `"Records"` is read without a bounds guard
(source line 110), and the committed provider-format branch is taken only
when the `"Records"` key is absent: a response with the key present but the
list empty reaches the out-of-bounds `IndexError`, not the provider-format
error. -/
theorem records_first_element_bounds (a1 : String)
    (a2 a3 city state : Option String) (p c : String) (b : Bool) (env : Env)
    (rid : String) :
    (a1 ≠ "" → p ≠ "" → c ≠ "" → env.dupe = none → env.record_id = some rid →
      env.response.ok = true → env.parsed.Records = some [] →
      (verify_address (some a1) a2 a3 city state (some p) (some c) b env).1 =
        .error (.indexError "list index out of range")) ∧
    (isProviderFormatResult
        (verify_address (some a1) a2 a3 city state (some p) (some c) b env).1 = true →
      env.parsed.Records = none) := by
  constructor
  · intro h1 h2 h3 hd hr hok hrec
    have hcond : ¬(a1.length < 1 || p.length < 1 || c.length < 1) = true := by
      intro h
      rcases (missingCond_iff a1 p c).mp h with h | h | h
      exacts [h1 h, h2 h, h3 h]
    simp only [verify_address]
    rw [if_neg hcond]
    unfold verifyBody
    rw [hd, hr, hok, hrec]
    rfl
  · simp only [verify_address]
    by_cases hcond : (a1.length < 1 || p.length < 1 || c.length < 1) = true
    · rw [if_pos hcond]
      exact fun h => Bool.noConfusion h
    · rw [if_neg hcond]
      exact verifyBody_providerFormat_only_no_records a1 a2 a3 city state p c b env

/-- C10 witness: the concrete environment whose parsed response has
`"Records"` present but empty reaches the `IndexError`. -/
theorem records_first_element_bounds_witness :
    (verify_address (some "123 Main St") none none none none (some "12345")
        (some "US") true envEmptyRecords).1 =
      .error (.indexError "list index out of range") :=
  (records_first_element_bounds "123 Main St" none none none none "12345" "US"
      true envEmptyRecords "rid10").1 (by decide) (by decide) (by decide) rfl
    rfl rfl rfl
